import Mathlib

/-!
Shallow embedding of the campus-commute-tracker core (TrackBus.tsx and
StudentDashboard.tsx): the geo-distance calculator, the proximity
evaluator, the live tracking session and marker lifecycle, the location
stream subscription lifecycle, and the student bus-assignment write
path, together with theorems checking the specification's claims.
-/

namespace CampusCommute

/-- Model of JavaScript Math.atan2 y x : the angle of the point (x, y),
given piecewise over the four quadrants and the axes (the signed-zero
distinctions of IEEE doubles are not modelled; atan2 0 0 = 0). -/
noncomputable def atan2 (y x : ℝ) : ℝ :=
  if 0 < x then Real.arctan (y / x)
  else if x < 0 ∧ 0 ≤ y then Real.arctan (y / x) + Real.pi
  else if x < 0 ∧ y < 0 then Real.arctan (y / x) - Real.pi
  else if x = 0 ∧ 0 < y then Real.pi / 2
  else if x = 0 ∧ y < 0 then -(Real.pi / 2)
  else 0

/-- TrackBus.tsx, calculateDistance (lines 200-210): haversine distance in
kilometers in the atan2 form, with Earth radius fixed at 6371 km. -/
noncomputable def calculateDistance (lat1 lon1 lat2 lon2 : ℝ) : ℝ :=
  let R : ℝ := 6371
  let dLat := (lat2 - lat1) * Real.pi / 180
  let dLon := (lon2 - lon1) * Real.pi / 180
  let a :=
    Real.sin (dLat / 2) * Real.sin (dLat / 2) +
    Real.cos (lat1 * Real.pi / 180) * Real.cos (lat2 * Real.pi / 180) *
    Real.sin (dLon / 2) * Real.sin (dLon / 2)
  let c := 2 * atan2 (Real.sqrt a) (Real.sqrt (1 - a))
  R * c

/-- The intermediate haversine term `a` computed inside calculateDistance,
named so the theorems can speak about it. -/
noncomputable def srcA (lat1 lon1 lat2 lon2 : ℝ) : ℝ :=
  Real.sin ((lat2 - lat1) * Real.pi / 180 / 2) *
    Real.sin ((lat2 - lat1) * Real.pi / 180 / 2) +
  Real.cos (lat1 * Real.pi / 180) * Real.cos (lat2 * Real.pi / 180) *
    Real.sin ((lon2 - lon1) * Real.pi / 180 / 2) *
    Real.sin ((lon2 - lon1) * Real.pi / 180 / 2)

lemma calculateDistance_eq (lat1 lon1 lat2 lon2 : ℝ) :
    calculateDistance lat1 lon1 lat2 lon2 =
      6371 * (2 * atan2 (Real.sqrt (srcA lat1 lon1 lat2 lon2))
        (Real.sqrt (1 - srcA lat1 lon1 lat2 lon2))) := rfl

/-- The spec's reference haversine
h = sin^2((lat2-lat1)/2 in radians)
  + cos(lat1 in radians) * cos(lat2 in radians) * sin^2((lon2-lon1)/2 in radians). -/
noncomputable def havRef (lat1 lon1 lat2 lon2 : ℝ) : ℝ :=
  Real.sin ((lat2 - lat1) * Real.pi / 180 / 2) ^ 2 +
  Real.cos (lat1 * Real.pi / 180) * Real.cos (lat2 * Real.pi / 180) *
    Real.sin ((lon2 - lon1) * Real.pi / 180 / 2) ^ 2

/-- The spec's reference distance 2 * 6371 * asin(sqrt h). -/
noncomputable def haversineRefDistance (lat1 lon1 lat2 lon2 : ℝ) : ℝ :=
  2 * 6371 * Real.arcsin (Real.sqrt (havRef lat1 lon1 lat2 lon2))

lemma srcA_eq_havRef (lat1 lon1 lat2 lon2 : ℝ) :
    srcA lat1 lon1 lat2 lon2 = havRef lat1 lon1 lat2 lon2 := by
  unfold srcA havRef; ring

/-- The agreement of the atan2 form with the asin form on [0, 1]. -/
lemma atan2_sqrt_eq_arcsin {a : ℝ} (h0 : 0 ≤ a) (h1 : a ≤ 1) :
    atan2 (Real.sqrt a) (Real.sqrt (1 - a)) = Real.arcsin (Real.sqrt a) := by
  rcases lt_or_eq_of_le h1 with hlt | heq
  · have hx : 0 < Real.sqrt (1 - a) := Real.sqrt_pos.2 (by linarith)
    rw [atan2, if_pos hx]
    have hmem : Real.sqrt a ∈ Set.Ioo (-(1 : ℝ)) 1 := by
      constructor
      · have := Real.sqrt_nonneg a; linarith
      · have hr : Real.sqrt a < Real.sqrt 1 := Real.sqrt_lt_sqrt h0 hlt
        simpa using hr
    rw [Real.arcsin_eq_arctan hmem, Real.sq_sqrt h0]
  · rw [heq]
    have hs0 : Real.sqrt (1 - 1) = 0 := by norm_num
    rw [hs0, Real.sqrt_one, atan2]
    norm_num [Real.arcsin_one]

lemma cos_deg_nonneg {lat : ℝ} (hl : -90 ≤ lat) (hr : lat ≤ 90) :
    0 ≤ Real.cos (lat * Real.pi / 180) := by
  have hc : (0 : ℝ) ≤ Real.pi / 180 := by positivity
  apply Real.cos_nonneg_of_mem_Icc
  constructor
  · have h := mul_le_mul_of_nonneg_right hl hc
    calc -(Real.pi / 2) = -90 * (Real.pi / 180) := by ring
      _ ≤ lat * (Real.pi / 180) := h
      _ = lat * Real.pi / 180 := by ring
  · have h := mul_le_mul_of_nonneg_right hr hc
    calc lat * Real.pi / 180 = lat * (Real.pi / 180) := by ring
      _ ≤ 90 * (Real.pi / 180) := h
      _ = Real.pi / 2 := by ring

lemma srcA_nonneg {lat1 lat2 : ℝ} (lon1 lon2 : ℝ)
    (h1l : -90 ≤ lat1) (h1r : lat1 ≤ 90) (h2l : -90 ≤ lat2) (h2r : lat2 ≤ 90) :
    0 ≤ srcA lat1 lon1 lat2 lon2 := by
  have hc1 := cos_deg_nonneg h1l h1r
  have hc2 := cos_deg_nonneg h2l h2r
  unfold srcA
  nlinarith [mul_self_nonneg (Real.sin ((lat2 - lat1) * Real.pi / 180 / 2)),
    mul_nonneg (mul_nonneg hc1 hc2)
      (mul_self_nonneg (Real.sin ((lon2 - lon1) * Real.pi / 180 / 2)))]

lemma srcA_le_one {lat1 lat2 : ℝ} (lon1 lon2 : ℝ)
    (h1l : -90 ≤ lat1) (h1r : lat1 ≤ 90) (h2l : -90 ≤ lat2) (h2r : lat2 ≤ 90) :
    srcA lat1 lon1 lat2 lon2 ≤ 1 := by
  have hc1 := cos_deg_nonneg h1l h1r
  have hc2 := cos_deg_nonneg h2l h2r
  have h2x : 2 * ((lat2 - lat1) * Real.pi / 180 / 2) = (lat2 - lat1) * Real.pi / 180 := by
    ring
  have hhalf := Real.sin_sq_eq_half_sub ((lat2 - lat1) * Real.pi / 180 / 2)
  rw [h2x] at hhalf
  have hsplit : (lat2 - lat1) * Real.pi / 180 =
      lat2 * Real.pi / 180 - lat1 * Real.pi / 180 := by ring
  have hcs : Real.cos ((lat2 - lat1) * Real.pi / 180) =
      Real.cos (lat2 * Real.pi / 180) * Real.cos (lat1 * Real.pi / 180) +
      Real.sin (lat2 * Real.pi / 180) * Real.sin (lat1 * Real.pi / 180) := by
    rw [hsplit, Real.cos_sub]
  rw [hcs] at hhalf
  have hcos_add := Real.cos_add (lat1 * Real.pi / 180) (lat2 * Real.pi / 180)
  have hcos_le := Real.cos_le_one (lat1 * Real.pi / 180 + lat2 * Real.pi / 180)
  have hsin2 := Real.sin_sq_le_one ((lon2 - lon1) * Real.pi / 180 / 2)
  unfold srcA
  nlinarith [hhalf, hcos_add, hcos_le, hsin2,
    mul_nonneg hc1 hc2,
    mul_nonneg (mul_nonneg hc1 hc2)
      (sub_nonneg.2 (Real.sin_sq_le_one ((lon2 - lon1) * Real.pi / 180 / 2)))]

lemma calculateDistance_eq_ref {lat1 lat2 : ℝ} (lon1 lon2 : ℝ)
    (h1l : -90 ≤ lat1) (h1r : lat1 ≤ 90) (h2l : -90 ≤ lat2) (h2r : lat2 ≤ 90) :
    calculateDistance lat1 lon1 lat2 lon2 = haversineRefDistance lat1 lon1 lat2 lon2 := by
  have h0 := srcA_nonneg lon1 lon2 h1l h1r h2l h2r
  have h1 := srcA_le_one lon1 lon2 h1l h1r h2l h2r
  rw [calculateDistance_eq, atan2_sqrt_eq_arcsin h0 h1, haversineRefDistance,
    ← srcA_eq_havRef]
  ring

/-- C1: calculateDistance agrees with the spec's reference haversine
2 * 6371 * asin(sqrt h) for all valid coordinate pairs, and the code's
atan2 form 2 * atan2(sqrt a, sqrt(1-a)) agrees with the asin form
2 * asin(sqrt a) for every a in [0, 1]. -/
theorem claim_C1_haversine_matches_reference :
    (∀ lat1 lon1 lat2 lon2 : ℝ, -90 ≤ lat1 → lat1 ≤ 90 → -90 ≤ lat2 → lat2 ≤ 90 →
      calculateDistance lat1 lon1 lat2 lon2 = haversineRefDistance lat1 lon1 lat2 lon2) ∧
    (∀ a : ℝ, 0 ≤ a → a ≤ 1 →
      2 * atan2 (Real.sqrt a) (Real.sqrt (1 - a)) = 2 * Real.arcsin (Real.sqrt a)) := by
  constructor
  · intro lat1 lon1 lat2 lon2 h1l h1r h2l h2r
    exact calculateDistance_eq_ref lon1 lon2 h1l h1r h2l h2r
  · intro a h0 h1
    rw [atan2_sqrt_eq_arcsin h0 h1]

/-- Witness for C1 at concrete valid coordinates and a concrete a in [0,1]. -/
theorem claim_C1_haversine_matches_reference_witness :
    calculateDistance 17 78 (35 / 2) (157 / 2) = haversineRefDistance 17 78 (35 / 2) (157 / 2) ∧
    2 * atan2 (Real.sqrt (1 / 2)) (Real.sqrt (1 - 1 / 2)) =
      2 * Real.arcsin (Real.sqrt (1 / 2)) :=
  ⟨claim_C1_haversine_matches_reference.1 17 78 (35 / 2) (157 / 2)
      (by norm_num) (by norm_num) (by norm_num) (by norm_num),
    claim_C1_haversine_matches_reference.2 (1 / 2) (by norm_num) (by norm_num)⟩

lemma srcA_symm (lat1 lon1 lat2 lon2 : ℝ) :
    srcA lat1 lon1 lat2 lon2 = srcA lat2 lon2 lat1 lon1 := by
  unfold srcA
  have e1 : (lat1 - lat2) * Real.pi / 180 / 2 =
      -((lat2 - lat1) * Real.pi / 180 / 2) := by ring
  have e2 : (lon1 - lon2) * Real.pi / 180 / 2 =
      -((lon2 - lon1) * Real.pi / 180 / 2) := by ring
  rw [e1, e2, Real.sin_neg, Real.sin_neg]
  ring

/-- C9: the distance function is symmetric in its two points, for all inputs. -/
theorem claim_C9_distance_symmetric (lat1 lon1 lat2 lon2 : ℝ) :
    calculateDistance lat1 lon1 lat2 lon2 = calculateDistance lat2 lon2 lat1 lon1 := by
  rw [calculateDistance_eq, calculateDistance_eq, srcA_symm]

/-- C10: for valid coordinate pairs the distance lies in [0, pi * 6371] km:
never negative and never above half the Earth's circumference. -/
theorem claim_C10_distance_range (lat1 lon1 lat2 lon2 : ℝ)
    (h1l : -90 ≤ lat1) (h1r : lat1 ≤ 90) (h2l : -90 ≤ lat2) (h2r : lat2 ≤ 90) :
    0 ≤ calculateDistance lat1 lon1 lat2 lon2 ∧
      calculateDistance lat1 lon1 lat2 lon2 ≤ Real.pi * 6371 := by
  have h0 := srcA_nonneg lon1 lon2 h1l h1r h2l h2r
  have h1 := srcA_le_one lon1 lon2 h1l h1r h2l h2r
  rw [calculateDistance_eq, atan2_sqrt_eq_arcsin h0 h1]
  constructor
  · have ha : 0 ≤ Real.arcsin (Real.sqrt (srcA lat1 lon1 lat2 lon2)) :=
      Real.arcsin_nonneg.2 (Real.sqrt_nonneg _)
    nlinarith [ha]
  · have hb := Real.arcsin_le_pi_div_two (Real.sqrt (srcA lat1 lon1 lat2 lon2))
    nlinarith [hb]

/-- Witness for C10 at concrete valid coordinates. -/
theorem claim_C10_distance_range_witness :
    0 ≤ calculateDistance 17 78 18 79 ∧ calculateDistance 17 78 18 79 ≤ Real.pi * 6371 :=
  claim_C10_distance_range 17 78 18 79 (by norm_num) (by norm_num) (by norm_num) (by norm_num)

/-! ## Data model, proximity evaluator and tracking session -/

/-- TrackBus.tsx, the Stop record (lines 18-24). -/
structure Stop where
  id : String
  name : String
  latitude : ℝ
  longitude : ℝ
  stop_order : ℤ

/-- TrackBus.tsx, the BusLocation record (lines 12-16); the timestamp
string is modelled as a natural number ordered like the source's
ISO timestamp strings. -/
structure BusLocation where
  latitude : ℝ
  longitude : ℝ
  timestamp : ℕ

/-- The kind of a toast call in the source: toast.info, toast.error or
toast.success. -/
inductive ToastKind
  | info
  | error
  | success
  deriving DecidableEq

/-- One toast invocation: its kind, message, and optional duration. -/
structure ToastEvent where
  kind : ToastKind
  message : String
  duration : Option ℕ
  deriving DecidableEq

/-- The notification fired for a stop within threshold
(TrackBus.tsx line 193): an info toast with a 5000 ms duration. -/
def approachToast (stop : Stop) : ToastEvent :=
  ⟨ToastKind.info, "🚌 Bus approaching " ++ stop.name, some 5000⟩

/-- TrackBus.tsx line 182: the proximity threshold constant 0.005, whose
source comment reads "~500 meters". -/
noncomputable def PROXIMITY_THRESHOLD : ℝ := 0.005

/-- TrackBus.tsx, checkProximityToStops (lines 181-198): for each stop in
list order, fire one info toast when the haversine distance from the
current location to the stop is below the threshold. -/
noncomputable def checkProximityToStops (stops : List Stop) (location : BusLocation) :
    List ToastEvent :=
  match stops with
  | [] => []
  | stop :: rest =>
      (if calculateDistance location.latitude location.longitude
            stop.latitude stop.longitude < PROXIMITY_THRESHOLD
        then [approachToast stop] else []) ++
      checkProximityToStops rest location

/-- The stops currently within the proximity threshold, in stop-list order. -/
noncomputable def nearStops (stops : List Stop) (location : BusLocation) : List Stop :=
  stops.filter (fun stop =>
    decide (calculateDistance location.latitude location.longitude
      stop.latitude stop.longitude < PROXIMITY_THRESHOLD))

lemma checkProximityToStops_eq (stops : List Stop) (location : BusLocation) :
    checkProximityToStops stops location = (nearStops stops location).map approachToast := by
  induction stops with
  | nil => rfl
  | cons stop rest ih =>
      by_cases h : calculateDistance location.latitude location.longitude
          stop.latitude stop.longitude < PROXIMITY_THRESHOLD
      · simp [checkProximityToStops, nearStops, h, ih, List.filter_cons]
      · simp [checkProximityToStops, nearStops, h, ih, List.filter_cons]

lemma string_eq_of_data_eq {s t : String} (h : s.data = t.data) : s = t := by
  cases s; cases t; exact congrArg String.mk h

lemma approachToast_name_eq {s t : Stop} (h : approachToast s = approachToast t) :
    s.name = t.name := by
  have hm : "🚌 Bus approaching " ++ s.name = "🚌 Bus approaching " ++ t.name :=
    congrArg ToastEvent.message h
  have hd := congrArg String.data hm
  rw [String.data_append, String.data_append] at hd
  exact string_eq_of_data_eq (List.append_cancel_left hd)

/-- C2: with stops of distinct names, the notification for stop s is
emitted exactly when the kilometer-valued haversine distance from the
position to s is below 0.005; the threshold is 0.005 km, i.e. 5 meters,
not the 500 meters the source comment documents. -/
theorem claim_C2_threshold_is_five_meters (location : BusLocation) (stops : List Stop)
    (s : Stop) (hs : s ∈ stops)
    (hnames : stops.Pairwise (fun a b => a.name ≠ b.name)) :
    (approachToast s ∈ checkProximityToStops stops location ↔
      calculateDistance location.latitude location.longitude s.latitude s.longitude
        < PROXIMITY_THRESHOLD) ∧
    PROXIMITY_THRESHOLD * 1000 = 5 := by
  constructor
  · rw [checkProximityToStops_eq]
    constructor
    · intro hmem
      rcases List.mem_map.1 hmem with ⟨t, htmem, hteq⟩
      rcases List.mem_filter.1 htmem with ⟨htstops, htdec⟩
      have hname : t.name = s.name := approachToast_name_eq hteq
      have hsymm : Symmetric (fun a b : Stop => a.name ≠ b.name) :=
        fun a b hab => fun hba => hab hba.symm
      by_cases hts : t = s
      · rw [← hts]
        exact of_decide_eq_true htdec
      · exact absurd hname (hnames.forall hsymm htstops hs hts)
    · intro hdist
      exact List.mem_map_of_mem approachToast
        (List.mem_filter.2 ⟨hs, decide_eq_true hdist⟩)
  · norm_num [PROXIMITY_THRESHOLD]

/-- Witness for C2 with one concrete stop colocated with the position. -/
theorem claim_C2_threshold_is_five_meters_witness :
    ((approachToast ⟨"s1", "Main Gate", 0, 0, 1⟩ ∈
        checkProximityToStops [⟨"s1", "Main Gate", 0, 0, 1⟩] ⟨0, 0, 10⟩) ↔
      calculateDistance 0 0 0 0 < PROXIMITY_THRESHOLD) ∧
    PROXIMITY_THRESHOLD * 1000 = 5 :=
  claim_C2_threshold_is_five_meters ⟨0, 0, 10⟩ [⟨"s1", "Main Gate", 0, 0, 1⟩]
    ⟨"s1", "Main Gate", 0, 0, 1⟩ (by simp) (by simp)

/-- The mutable pieces of the TrackBus component that the tracking claims
are about: the busLocation state, the live marker and map view, the
emitted toast log, and a log of updateBusMarker invocations. -/
structure SessionState where
  busLocation : Option BusLocation
  busMarker : Option (ℝ × ℝ)
  mapAttached : Bool
  center : ℝ × ℝ
  zoom : ℝ
  toasts : List ToastEvent
  markerLog : List (ℝ × ℝ)

/-- TrackBus.tsx, updateBusMarker (lines 159-179): bail out when no map is
attached; otherwise both branches leave the single live marker at
[longitude, latitude] (setLngLat on the existing marker, or creation of a
new marker there), and the map flies to those coordinates at zoom 14. -/
noncomputable def updateBusMarker (st : SessionState) (location : BusLocation) :
    SessionState :=
  if st.mapAttached = false then st
  else
    let coords : ℝ × ℝ := (location.longitude, location.latitude)
    { st with
      busMarker := some coords
      center := coords
      zoom := 14
      markerLog := st.markerLog ++ [coords] }

/-- One delivered live position: the subscription callback
(TrackBus.tsx lines 127-133) replaces the current location and runs the
proximity check, and the marker effect (lines 50-54) then updates the
marker when a map is attached. -/
noncomputable def handleLiveLocation (stops : List Stop) (st : SessionState)
    (location : BusLocation) : SessionState :=
  let st1 := { st with
    busLocation := some location
    toasts := st.toasts ++ checkProximityToStops stops location }
  if st1.mapAttached = true then updateBusMarker st1 location else st1

/-- C3: a single proximity-evaluator call emits exactly one notification
per stop below threshold, in stop-list order (hence ascending stop_order
when the stop list is so ordered), and no event for any other stop; the
evaluator is stateless, so a second update at the same position emits
the same notifications again. -/
theorem claim_C3_one_event_per_near_stop (stops : List Stop) (location : BusLocation)
    (st : SessionState)
    (hsorted : stops.Pairwise (fun a b => a.stop_order ≤ b.stop_order)) :
    checkProximityToStops stops location = (nearStops stops location).map approachToast ∧
    (nearStops stops location).Pairwise (fun a b => a.stop_order ≤ b.stop_order) ∧
    (handleLiveLocation stops (handleLiveLocation stops st location) location).toasts =
      st.toasts ++ checkProximityToStops stops location
        ++ checkProximityToStops stops location := by
  refine ⟨checkProximityToStops_eq stops location, hsorted.filter _, ?_⟩
  by_cases hmap : st.mapAttached = true
  · simp [handleLiveLocation, updateBusMarker, hmap]
  · simp [handleLiveLocation, updateBusMarker, hmap]

/-- Witness for C3 with a concrete sorted stop list and position. -/
theorem claim_C3_one_event_per_near_stop_witness :
    checkProximityToStops [⟨"s1", "A", 0, 0, 1⟩, ⟨"s2", "B", 1, 1, 2⟩] ⟨0, 0, 10⟩ =
      (nearStops [⟨"s1", "A", 0, 0, 1⟩, ⟨"s2", "B", 1, 1, 2⟩] ⟨0, 0, 10⟩).map approachToast ∧
    (nearStops [⟨"s1", "A", 0, 0, 1⟩, ⟨"s2", "B", 1, 1, 2⟩] ⟨0, 0, 10⟩).Pairwise
      (fun a b => a.stop_order ≤ b.stop_order) ∧
    (handleLiveLocation [⟨"s1", "A", 0, 0, 1⟩, ⟨"s2", "B", 1, 1, 2⟩]
        (handleLiveLocation [⟨"s1", "A", 0, 0, 1⟩, ⟨"s2", "B", 1, 1, 2⟩]
          ⟨none, none, true, (0, 0), 12, [], []⟩ ⟨0, 0, 10⟩) ⟨0, 0, 10⟩).toasts =
      ([] : List ToastEvent) ++
        checkProximityToStops [⟨"s1", "A", 0, 0, 1⟩, ⟨"s2", "B", 1, 1, 2⟩] ⟨0, 0, 10⟩ ++
        checkProximityToStops [⟨"s1", "A", 0, 0, 1⟩, ⟨"s2", "B", 1, 1, 2⟩] ⟨0, 0, 10⟩ :=
  claim_C3_one_event_per_near_stop [⟨"s1", "A", 0, 0, 1⟩, ⟨"s2", "B", 1, 1, 2⟩] ⟨0, 0, 10⟩
    ⟨none, none, true, (0, 0), 12, [], []⟩ (by simp)

/-- C4: feeding the session three positions P1, P2, P3 in order leaves the
current-position state equal to P3, and exactly three marker-update
invocations occur, in order, each placing the live marker at the
delivered coordinates and recentering the map on them. -/
theorem claim_C4_three_positions_in_order (stops : List Stop) (st : SessionState)
    (p1 p2 p3 : BusLocation) (hmap : st.mapAttached = true) :
    (handleLiveLocation stops
        (handleLiveLocation stops (handleLiveLocation stops st p1) p2) p3).busLocation =
      some p3 ∧
    (handleLiveLocation stops
        (handleLiveLocation stops (handleLiveLocation stops st p1) p2) p3).markerLog =
      st.markerLog ++ [(p1.longitude, p1.latitude), (p2.longitude, p2.latitude),
        (p3.longitude, p3.latitude)] ∧
    (handleLiveLocation stops
        (handleLiveLocation stops (handleLiveLocation stops st p1) p2) p3).busMarker =
      some (p3.longitude, p3.latitude) ∧
    (handleLiveLocation stops
        (handleLiveLocation stops (handleLiveLocation stops st p1) p2) p3).center =
      (p3.longitude, p3.latitude) := by
  simp [handleLiveLocation, updateBusMarker, hmap]

/-- Witness for C4 with three concrete positions and a map attached. -/
theorem claim_C4_three_positions_in_order_witness :
    (handleLiveLocation []
        (handleLiveLocation [] (handleLiveLocation []
          ⟨none, none, true, (0, 0), 12, [], []⟩ ⟨1, 2, 5⟩) ⟨3, 4, 6⟩) ⟨5, 6, 7⟩).busLocation =
      some ⟨5, 6, 7⟩ ∧
    (handleLiveLocation []
        (handleLiveLocation [] (handleLiveLocation []
          ⟨none, none, true, (0, 0), 12, [], []⟩ ⟨1, 2, 5⟩) ⟨3, 4, 6⟩) ⟨5, 6, 7⟩).markerLog =
      ([] : List (ℝ × ℝ)) ++ [(2, 1), (4, 3), (6, 5)] ∧
    (handleLiveLocation []
        (handleLiveLocation [] (handleLiveLocation []
          ⟨none, none, true, (0, 0), 12, [], []⟩ ⟨1, 2, 5⟩) ⟨3, 4, 6⟩) ⟨5, 6, 7⟩).busMarker =
      some (6, 5) ∧
    (handleLiveLocation []
        (handleLiveLocation [] (handleLiveLocation []
          ⟨none, none, true, (0, 0), 12, [], []⟩ ⟨1, 2, 5⟩) ⟨3, 4, 6⟩) ⟨5, 6, 7⟩).center =
      (6, 5) :=
  claim_C4_three_positions_in_order [] ⟨none, none, true, (0, 0), 12, [], []⟩
    ⟨1, 2, 5⟩ ⟨3, 4, 6⟩ ⟨5, 6, 7⟩ rfl

/-! ## Eager fetch of the latest stored position -/

/-- A stored row of the bus_locations feed. -/
structure LocationRow where
  bus_id : String
  latitude : ℝ
  longitude : ℝ
  timestamp : ℕ

/-- The position carried by a stored row. -/
def LocationRow.toBusLocation (r : LocationRow) : BusLocation :=
  ⟨r.latitude, r.longitude, r.timestamp⟩

/-- TrackBus.tsx, loadLatestLocation (lines 145-157): the query for the
bus's stored position with the greatest timestamp (filter on bus_id,
order by timestamp descending, limit 1, single). -/
def latestLocation (rows : List LocationRow) (busId : String) : Option LocationRow :=
  match rows.filter (fun r => r.bus_id == busId) with
  | [] => none
  | r :: rs =>
      some (rs.foldl (fun best x => if best.timestamp < x.timestamp then x else best) r)

/-- The continuation of loadLatestLocation — `if (data) setBusLocation(data)` —
plus the marker effect: only the location state is set and the marker
follows; no proximity check runs on this path. -/
noncomputable def handleEagerResult (st : SessionState) (data : Option LocationRow) :
    SessionState :=
  match data with
  | none => st
  | some row =>
      let st1 := { st with busLocation := some row.toBusLocation }
      if st1.mapAttached = true then updateBusMarker st1 row.toBusLocation else st1

lemma latest_foldl_mem (r : LocationRow) (rs : List LocationRow) :
    rs.foldl (fun best x => if best.timestamp < x.timestamp then x else best) r ∈
      r :: rs := by
  induction rs generalizing r with
  | nil => simp
  | cons x xs ih =>
      rw [List.foldl_cons]
      have hm := ih (if r.timestamp < x.timestamp then x else r)
      rcases List.mem_cons.1 hm with heq | hmem
      · rw [heq]
        by_cases h : r.timestamp < x.timestamp
        · rw [if_pos h]; simp
        · rw [if_neg h]; simp
      · simp [List.mem_cons_of_mem, hmem]

lemma latest_foldl_ge (r : LocationRow) (rs : List LocationRow) :
    ∀ q ∈ r :: rs, q.timestamp ≤
      (rs.foldl (fun best x => if best.timestamp < x.timestamp then x else best)
        r).timestamp := by
  induction rs generalizing r with
  | nil =>
      intro q hq
      rw [List.mem_singleton] at hq
      rw [hq, List.foldl_nil]
  | cons x xs ih =>
      intro q hq
      rw [List.foldl_cons]
      have hge_r : r.timestamp ≤ (if r.timestamp < x.timestamp then x else r).timestamp := by
        by_cases h : r.timestamp < x.timestamp
        · rw [if_pos h]; exact le_of_lt h
        · rw [if_neg h]
      have hge_x : x.timestamp ≤ (if r.timestamp < x.timestamp then x else r).timestamp := by
        by_cases h : r.timestamp < x.timestamp
        · rw [if_pos h]
        · rw [if_neg h]; exact le_of_not_lt h
      have hhead := ih (if r.timestamp < x.timestamp then x else r) _
        (List.mem_cons_self _ _)
      rcases List.mem_cons.1 hq with hq1 | hq2
      · rw [hq1]; exact le_trans hge_r hhead
      · rcases List.mem_cons.1 hq2 with hq3 | hq4
        · rw [hq3]; exact le_trans hge_x hhead
        · exact ih (if r.timestamp < x.timestamp then x else r) q
            (List.mem_cons_of_mem _ hq4)

lemma latestLocation_spec (rows : List LocationRow) (busId : String) (r : LocationRow)
    (h : latestLocation rows busId = some r) :
    r ∈ rows.filter (fun q => q.bus_id == busId) ∧
    ∀ q ∈ rows.filter (fun q => q.bus_id == busId), q.timestamp ≤ r.timestamp := by
  unfold latestLocation at h
  cases hf : rows.filter (fun q => q.bus_id == busId) with
  | nil => rw [hf] at h; exact absurd h (by simp)
  | cons a as =>
      rw [hf] at h
      have hr : as.foldl (fun best x => if best.timestamp < x.timestamp then x else best) a
          = r := Option.some.inj h
      constructor
      · rw [← hr]; exact latest_foldl_mem a as
      · intro q hq
        rw [← hr]
        exact latest_foldl_ge a as q hq

/-! ## Subscription lifecycle and teardown -/

/-- The client-side state of the realtime channel: whether the filtered
insert subscription is active. -/
structure ChannelState where
  subscribed : Bool
  deriving DecidableEq

/-- supabase.removeChannel (TrackBus.tsx line 141). -/
def removeChannel (c : ChannelState) : ChannelState := { c with subscribed := false }

/-- TrackBus.tsx, subscribeToLocationUpdates (lines 116-143): subscribes
the insert channel filtered to the bus and returns an unsubscribe closure
that removes the channel. -/
def subscribeToLocationUpdates (c : ChannelState) :
    ChannelState × (ChannelState → ChannelState) :=
  ({ c with subscribed := true }, fun ch => removeChannel ch)

/-- The mount effect (TrackBus.tsx lines 38-42): it calls loadBusInfo,
loadStops and subscribeToLocationUpdates; its body returns nothing, so
the unsubscribe closure produced by subscribeToLocationUpdates is
discarded and React registers no cleanup for this effect. -/
def trackBusMountEffect (c : ChannelState) :
    ChannelState × Option (ChannelState → ChannelState) :=
  ((subscribeToLocationUpdates c).1, none)

/-- React unmount: run the effect's registered cleanup if there is one. -/
def unmountComponent (c : ChannelState)
    (cleanup : Option (ChannelState → ChannelState)) : ChannelState :=
  match cleanup with
  | some f => f c
  | none => c

/-- A live insert event reaches the subscription callback exactly while
the channel is subscribed. -/
noncomputable def deliverLiveEvent (c : ChannelState) (stops : List Stop)
    (st : SessionState) (location : BusLocation) : SessionState :=
  if c.subscribed = true then handleLiveLocation stops st location else st

/-- C5 fails on the code: the mount effect discards the unsubscribe
closure returned by subscribeToLocationUpdates, so no cleanup runs on
unmount and the channel remains subscribed; a live insert delivered
after teardown still updates the location and marker state, and an
in-flight eager fetch resolving after teardown also still updates the
state — no session-torn-down guard exists anywhere. -/
theorem claim_C5_after_teardown_updates_still_occur :
    (unmountComponent (trackBusMountEffect ⟨false⟩).1
        (trackBusMountEffect ⟨false⟩).2).subscribed = true ∧
    (deliverLiveEvent
        (unmountComponent (trackBusMountEffect ⟨false⟩).1 (trackBusMountEffect ⟨false⟩).2)
        [] ⟨none, none, true, (0, 0), 12, [], []⟩ ⟨1, 2, 5⟩).busLocation = some ⟨1, 2, 5⟩ ∧
    (deliverLiveEvent
        (unmountComponent (trackBusMountEffect ⟨false⟩).1 (trackBusMountEffect ⟨false⟩).2)
        [] ⟨none, none, true, (0, 0), 12, [], []⟩ ⟨1, 2, 5⟩).markerLog = [(2, 1)] ∧
    (handleEagerResult ⟨none, none, true, (0, 0), 12, [], []⟩
        (some ⟨"b1", 3, 4, 9⟩)).busLocation = some ⟨3, 4, 9⟩ := by
  refine ⟨rfl, ?_, ?_, rfl⟩ <;>
    simp [deliverLiveEvent, unmountComponent, trackBusMountEffect,
      subscribeToLocationUpdates, handleLiveLocation, checkProximityToStops,
      updateBusMarker, removeChannel]

lemma calculateDistance_self (lat lon : ℝ) : calculateDistance lat lon lat lon = 0 := by
  rw [calculateDistance_eq]
  have ha : srcA lat lon lat lon = 0 := by
    unfold srcA
    simp
  rw [ha]
  norm_num [atan2, Real.sqrt_zero, Real.sqrt_one]

lemma prox_threshold_pos : (0 : ℝ) < PROXIMITY_THRESHOLD := by
  norm_num [PROXIMITY_THRESHOLD]

/-- C6 as stated is false on the code: the eager fetch's result is not
delivered through the live callback path — with a stop colocated with
the stored position, the live path fires the proximity notification but
the eager-fetch path fires none, so the two paths produce different
session states. -/
theorem claim_C6_counterexample :
    (handleEagerResult ⟨none, none, true, (0, 0), 12, [], []⟩
        (some ⟨"b1", 0, 0, 5⟩)).toasts = [] ∧
    (handleLiveLocation [⟨"s1", "Main Gate", 0, 0, 1⟩]
        ⟨none, none, true, (0, 0), 12, [], []⟩
        (LocationRow.toBusLocation ⟨"b1", 0, 0, 5⟩)).toasts =
      [approachToast ⟨"s1", "Main Gate", 0, 0, 1⟩] ∧
    handleEagerResult ⟨none, none, true, (0, 0), 12, [], []⟩ (some ⟨"b1", 0, 0, 5⟩) ≠
      handleLiveLocation [⟨"s1", "Main Gate", 0, 0, 1⟩]
        ⟨none, none, true, (0, 0), 12, [], []⟩
        (LocationRow.toBusLocation ⟨"b1", 0, 0, 5⟩) := by
  have hlt : calculateDistance (0 : ℝ) 0 0 0 < PROXIMITY_THRESHOLD := by
    rw [calculateDistance_self]
    exact prox_threshold_pos
  have h1 : (handleEagerResult ⟨none, none, true, (0, 0), 12, [], []⟩
      (some ⟨"b1", 0, 0, 5⟩)).toasts = [] := by
    simp [handleEagerResult, updateBusMarker, LocationRow.toBusLocation]
  have h2 : (handleLiveLocation [⟨"s1", "Main Gate", 0, 0, 1⟩]
      ⟨none, none, true, (0, 0), 12, [], []⟩
      (LocationRow.toBusLocation ⟨"b1", 0, 0, 5⟩)).toasts =
      [approachToast ⟨"s1", "Main Gate", 0, 0, 1⟩] := by
    simp [handleLiveLocation, updateBusMarker, checkProximityToStops,
      LocationRow.toBusLocation, hlt]
  refine ⟨h1, h2, fun heq => ?_⟩
  have ht := congrArg SessionState.toasts heq
  rw [h1, h2] at ht
  exact List.cons_ne_nil _ _ ht.symm

/-- C6 amended: on subscription start exactly one eager fetch runs; it
returns the stored row with the greatest timestamp among the bus's rows
(order by timestamp descending, limit 1) or none when the bus has no
rows, in which case no event fires and the current position stays as it
was; a fetched row updates the current position and the marker exactly
like a live event, but — unlike the live callback — it does not run the
proximity evaluation, so no notification can result from it. -/
theorem claim_C6_amended_eager_fetch (rows : List LocationRow) (busId : String)
    (r : LocationRow) (st : SessionState) (row : LocationRow)
    (hsome : latestLocation rows busId = some r) :
    (r ∈ rows.filter (fun q => q.bus_id == busId) ∧
      ∀ q ∈ rows.filter (fun q => q.bus_id == busId), q.timestamp ≤ r.timestamp) ∧
    handleEagerResult st none = st ∧
    (handleEagerResult st (some row)).busLocation = some row.toBusLocation ∧
    (handleEagerResult st (some row)).toasts = st.toasts := by
  refine ⟨latestLocation_spec rows busId r hsome, rfl, ?_, ?_⟩
  · by_cases hm : st.mapAttached = true
    · simp [handleEagerResult, updateBusMarker, hm]
    · simp [handleEagerResult, updateBusMarker, hm]
  · by_cases hm : st.mapAttached = true
    · simp [handleEagerResult, updateBusMarker, hm]
    · simp [handleEagerResult, updateBusMarker, hm]

/-- Witness for the amended C6 at a concrete row set and session. -/
theorem claim_C6_amended_eager_fetch_witness :
    ((⟨"b1", 3, 4, 9⟩ : LocationRow) ∈
        ([⟨"b1", 1, 2, 5⟩, ⟨"b1", 3, 4, 9⟩, ⟨"b2", 0, 0, 99⟩] : List LocationRow).filter
          (fun q => q.bus_id == "b1") ∧
      ∀ q ∈ ([⟨"b1", 1, 2, 5⟩, ⟨"b1", 3, 4, 9⟩, ⟨"b2", 0, 0, 99⟩] : List LocationRow).filter
          (fun q => q.bus_id == "b1"), q.timestamp ≤ (9 : ℕ)) ∧
    handleEagerResult ⟨none, none, true, (0, 0), 12, [], []⟩ none =
      ⟨none, none, true, (0, 0), 12, [], []⟩ ∧
    (handleEagerResult ⟨none, none, true, (0, 0), 12, [], []⟩
        (some ⟨"b1", 3, 4, 9⟩)).busLocation =
      some (LocationRow.toBusLocation ⟨"b1", 3, 4, 9⟩) ∧
    (handleEagerResult ⟨none, none, true, (0, 0), 12, [], []⟩
        (some ⟨"b1", 3, 4, 9⟩)).toasts = [] :=
  claim_C6_amended_eager_fetch [⟨"b1", 1, 2, 5⟩, ⟨"b1", 3, 4, 9⟩, ⟨"b2", 0, 0, 99⟩] "b1"
    ⟨"b1", 3, 4, 9⟩ ⟨none, none, true, (0, 0), 12, [], []⟩ ⟨"b1", 3, 4, 9⟩ rfl

/-! ## Student dashboard: bus selection -/

/-- A row of the student_buses table. -/
structure Assignment where
  student_id : String
  bus_id : String
  deriving DecidableEq

/-- A database write attempted by handleSelectBus. -/
inductive DbOp
  | del (student : String)
  | ins (student bus : String)
  deriving DecidableEq

/-- The observable outcome of one handleSelectBus call. -/
structure SelectResult where
  db : List Assignment
  toasts : List ToastEvent
  ops : List DbOp
  reloaded : Bool
  deriving DecidableEq

/-- StudentDashboard.tsx, handleSelectBus (lines 64-85): one delete of all
of the student's assignment rows, whose error result the source discards,
then one insert of the new assignment, attempted regardless of the
delete's outcome; only an insert error is surfaced (toast.error); on
success a success toast shows and the selection reloads. The deleteOk and
insertOk flags inject the backend's outcome for the two writes. -/
def handleSelectBus (deleteOk insertOk : Bool) (db : List Assignment)
    (user busId : String) : SelectResult :=
  let db1 := if deleteOk then db.filter (fun a => !(a.student_id == user)) else db
  if insertOk then
    { db := db1 ++ [⟨user, busId⟩]
      toasts := [⟨ToastKind.success, "Bus selected successfully", none⟩]
      ops := [DbOp.del user, DbOp.ins user busId]
      reloaded := true }
  else
    { db := db1
      toasts := [⟨ToastKind.error, "Failed to select bus", none⟩]
      ops := [DbOp.del user, DbOp.ins user busId]
      reloaded := false }

/-- C7 as stated is false on the code: in a run where the delete fails
and the insert succeeds, no failure notice is emitted at all — the
delete's error is silently discarded and the run shows only the success
toast. -/
theorem claim_C7_counterexample :
    (handleSelectBus false true [⟨"stu", "bus1"⟩] "stu" "bus2").toasts =
      [⟨ToastKind.success, "Bus selected successfully", none⟩] ∧
    ∀ t ∈ (handleSelectBus false true [⟨"stu", "bus1"⟩] "stu" "bus2").toasts,
      t.kind ≠ ToastKind.error := by
  constructor
  · rfl
  · decide

/-- C7 amended: when the delete succeeds and the insert fails, the prior
assignment has been removed and is not restored, the insert failure is
surfaced as an error toast, and neither write is retried (each is
attempted exactly once); a delete failure, by contrast, produces no
notice and the insert is attempted anyway. -/
theorem claim_C7_amended_delete_error_silent (db : List Assignment)
    (user busId : String) :
    (handleSelectBus true false db user busId).db =
      db.filter (fun a => !(a.student_id == user)) ∧
    (handleSelectBus true false db user busId).toasts =
      [⟨ToastKind.error, "Failed to select bus", none⟩] ∧
    (handleSelectBus true false db user busId).ops =
      [DbOp.del user, DbOp.ins user busId] ∧
    (handleSelectBus true false db user busId).reloaded = false ∧
    (handleSelectBus false true db user busId).toasts =
      [⟨ToastKind.success, "Bus selected successfully", none⟩] := by
  simp [handleSelectBus]

/-- C8: after two consecutive successful handleSelectBus calls with
distinct bus ids b1 then b2, exactly one assignment row exists for the
student, and it references b2. -/
theorem claim_C8_reselect_replaces_assignment (db : List Assignment)
    (user b1 b2 : String) (hne : b1 ≠ b2) :
    ((handleSelectBus true true
        (handleSelectBus true true db user b1).db user b2).db.filter
      (fun a => a.student_id == user)) = [⟨user, b2⟩] := by
  simp [handleSelectBus, List.filter_append, List.filter_filter]

/-- Witness for C8 with a concrete database and distinct bus ids. -/
theorem claim_C8_reselect_replaces_assignment_witness :
    ("b1" : String) ≠ "b2" ∧
    ((handleSelectBus true true
        (handleSelectBus true true [⟨"other", "b9"⟩, ⟨"stu", "b0"⟩] "stu" "b1").db
        "stu" "b2").db.filter (fun a => a.student_id == "stu")) = [⟨"stu", "b2"⟩] :=
  ⟨by decide, claim_C8_reselect_replaces_assignment [⟨"other", "b9"⟩, ⟨"stu", "b0"⟩]
    "stu" "b1" "b2" (by decide)⟩

end CampusCommute
